import Mathlib

/-!
# libvmod-memcached: a shallow embedding of `vmod_memcached.c`

The module keeps one `vmod_mc_vcl_settings` record per loaded VCL and offers
configuration calls (`servers`, `error_string`, `pool_timeout_msec`) and six
cache commands (`set`, `get`, `incr`, `decr`, `incr_set`, `decr_set`).

Conventions of the embedding:

* a C string (`VCL_STRING`, `char *`) is the list of its bytes before the
  terminating NUL, so it holds no byte 0; a buffer (`char[128]`) is the list of
  all its bytes, NULs included, and `cstr` reads the C string stored at its start;
* `long`, `VCL_INT` and `time_t` are 64-bit signed, `int` is 32-bit signed,
  `uint32_t` and `uint64_t` are reduced with an explicit `%`;
* libmemcached, the pool and the Varnish log are outside the source file: the
  library is a record `Lib` of result functions, and every call that touches
  the pool, the cache or the log is written to a trace of `Action`s;
* `AN`/`AZ` are Varnish assertions: a failed assertion stops the process, which
  is a result `none` (commands) or `faulted = true` (configuration calls).
-/

namespace VmodMemcached

/-! ## C strings and integer conversions -/

/-- The C string stored at the start of a buffer: the bytes before the first NUL. -/
def cstr (buf : List Nat) : List Nat := buf.takeWhile (fun b => b != 0)

/-- C `strlen` of a C string. -/
def strlen (s : List Nat) : Nat := s.length

/-- C `strcpy(dst, src)`: the C string `dst` holds afterwards. -/
def strcpy (src : List Nat) : List Nat := src

/-- C `strcat(dst, src)`: the C string `dst` holds afterwards. -/
def strcat (dst src : List Nat) : List Nat := dst ++ src

/-- C `strncpy(dst, src, n)` from the C string `src` into the buffer `dst`: exactly
`n` bytes are written, the bytes of `src` first and NUL padding after its end; no
terminator is written when `src` has `n` bytes or more. -/
def strncpy : List Nat → List Nat → Nat → List Nat
  | dst, _, 0 => dst
  | dst, [], n + 1 => 0 :: strncpy dst.tail [] n
  | dst, c :: cs, n + 1 => c :: strncpy dst.tail cs n

/-- C `tolower` in the C locale. -/
def tolower (b : Nat) : Nat := if 65 ≤ b ∧ b ≤ 90 then b + 32 else b

/-- Does `needle` match at the very start of `hay`, ignoring letter case? -/
def casePrefix : List Nat → List Nat → Bool
  | [], _ => true
  | _ :: _, [] => false
  | n :: ns, h :: hs => tolower n == tolower h && casePrefix ns hs

/-- GNU `strcasestr(haystack, needle)`: the suffix of `haystack` that starts at the
first place where `needle` matches ignoring case, or `none` (NULL). -/
def strcasestr : List Nat → List Nat → Option (List Nat)
  | [], needle => if casePrefix needle [] then some [] else none
  | h :: hs, needle =>
    if casePrefix needle (h :: hs) then some (h :: hs) else strcasestr hs needle

/-- Conversion of a `VCL_INT` argument to `uint32_t`. -/
def toU32 (x : Int) : Nat := (x % 2 ^ 32).toNat

/-- Conversion of a `VCL_INT` argument to `uint64_t`. -/
def toU64 (x : Int) : Nat := (x % 2 ^ 64).toNat

/-- The cast `(VCL_INT)value` of a `uint64_t`: two's complement reading of 64 bits. -/
def toVclInt (value : Nat) : Int :=
  if value % 2 ^ 64 < 2 ^ 63 then ((value % 2 ^ 64 : Nat) : Int)
  else ((value % 2 ^ 64 : Nat) : Int) - 2 ^ 64

/-- Wrap-around of a result computed in `long`. -/
def wrapLong (x : Int) : Int := (x + 2 ^ 63) % 2 ^ 64 - 2 ^ 63

/-! ## Constants of the source file -/

/-- Bytes of a string literal. -/
def lit (s : String) : List Nat := s.toList.map Char.toNat

def POOL_MAX_CONN_STR : List Nat := lit "40"

def POOL_MAX_CONN_PREFIX : List Nat := lit "--POOL-MAX="

def POOL_MAX_CONN_PARAM : List Nat := lit " " ++ POOL_MAX_CONN_PREFIX ++ POOL_MAX_CONN_STR

def POOL_TIMEOUT_MSEC : Int := 3000

def POOL_ERROR_INT : Int := -1

/-- Return codes of libmemcached (`memcached_return_t`). -/
abbrev memcached_return_t := Nat

/-- The value of `MEMCACHED_SUCCESS` in the `memcached_return_t` enumeration. -/
def MEMCACHED_SUCCESS : memcached_return_t := 0

/-! ## Data model -/

/-- A `memcached_pool_st *` that is not NULL. -/
structure memcached_pool_st where
  id : Nat
  deriving DecidableEq

/-- A `memcached_st *` that is not NULL: a connection leased from the pool. -/
structure memcached_st where
  id : Nat
  deriving DecidableEq

/-- C `struct timespec`. -/
structure timespec where
  tv_sec : Int
  tv_nsec : Int
  deriving DecidableEq

/-- The values a `char *` takes in this module. -/
inductive StrPtr where
  /-- `NULL` (the value of `POOL_ERROR_STRING`). -/
  | null
  /-- The address of `settings->error_str_value`. -/
  | error_str_value
  /-- A string that `WS_Copy` placed in the request workspace. -/
  | ws (content : List Nat)
  deriving DecidableEq

/-- C `struct vmod_mc_vcl_settings`. -/
structure vmod_mc_vcl_settings where
  pool : Option memcached_pool_st
  pool_timeout_msec : Int
  error_int : Int
  error_str : StrPtr
  error_str_value : List Nat
  deriving DecidableEq

/-- The C string a pointer returned by this module designates, `none` for NULL. -/
def StrPtr.deref (settings : vmod_mc_vcl_settings) : StrPtr → Option (List Nat)
  | .null => none
  | .error_str_value => some (cstr settings.error_str_value)
  | .ws content => some content

/-- Varnish log tags used by the module. -/
inductive SltTag where
  | Debug
  | Error
  deriving DecidableEq

/-- The cache operations of libmemcached the commands call, with their arguments
as passed (key and its `strlen`, converted integers). -/
inductive CacheOp where
  | set (key : List Nat) (klen : Nat) (value : List Nat) (vlen : Nat)
      (expiration : Int) (flags : Nat)
  | get (key : List Nat) (klen : Nat)
  | increment (key : List Nat) (klen : Nat) (offset : Nat)
  | decrement (key : List Nat) (klen : Nat) (offset : Nat)
  | increment_with_initial (key : List Nat) (klen : Nat) (offset initial : Nat)
      (expiration : Int)
  | decrement_with_initial (key : List Nat) (klen : Nat) (offset initial : Nat)
      (expiration : Int)
  deriving DecidableEq

/-- What a call of the module does to the pool, the cache and the log, in order. -/
inductive Action where
  /-- `memcached_pool(config, len)` and the pool it returned. -/
  | pool_create (config : List Nat) (len : Nat) (pool : Option memcached_pool_st)
  /-- `memcached_pool_fetch(pool, &wait, &rc)` with its two results. -/
  | pool_fetch (pool : memcached_pool_st) (wait : timespec)
      (mc : Option memcached_st) (rc : memcached_return_t)
  /-- One cache operation on a connection. -/
  | cache_op (mc : memcached_st) (op : CacheOp)
  /-- `memcached_pool_release(pool, mc)`. -/
  | pool_release (pool : Option memcached_pool_st) (mc : memcached_st)
  /-- `libmemcached_check_configuration(config, len, error_buf, 256)`. -/
  | check_configuration (config : List Nat) (len : Nat)
  /-- One `VSL`/`VSLb` line: tag, format and the string argument, if any. -/
  | log (tag : SltTag) (fmt : String) (arg : Option (List Nat))
  deriving DecidableEq

/-- The results of the libmemcached calls, as functions of their arguments. -/
structure Lib where
  memcached_pool : List Nat → Nat → Option memcached_pool_st
  memcached_pool_fetch : memcached_pool_st → timespec → Option memcached_st × memcached_return_t
  /-- Result code of `memcached_set`. -/
  memcached_set : memcached_st → List Nat → Nat → List Nat → Nat → Int → Nat → memcached_return_t
  /-- Returned `char *` (the C string it points to, `none` for NULL) and `rc`. -/
  memcached_get : memcached_st → List Nat → Nat → Option (List Nat) × memcached_return_t
  /-- Result code and the content of `value` after the call. -/
  memcached_increment : memcached_st → List Nat → Nat → Nat → memcached_return_t × Nat
  memcached_decrement : memcached_st → List Nat → Nat → Nat → memcached_return_t × Nat
  memcached_increment_with_initial :
    memcached_st → List Nat → Nat → Nat → Nat → Int → memcached_return_t × Nat
  memcached_decrement_with_initial :
    memcached_st → List Nat → Nat → Nat → Nat → Int → memcached_return_t × Nat
  memcached_strerror : memcached_st → memcached_return_t → List Nat
  memcached_last_error_message : memcached_st → Option (List Nat)
  /-- The text `libmemcached_check_configuration` leaves in `error_buf`. -/
  libmemcached_check_configuration : List Nat → Nat → List Nat

/-- Result of a command: the returned value (`none` when an assertion stopped the
process before the command returned) and the actions performed. -/
structure Run (α : Type) where
  result : Option α
  trace : List Action

/-- Result of a configuration call: the settings as the call left them, whether an
assertion stopped the process, and the actions performed. -/
structure Conf where
  settings : vmod_mc_vcl_settings
  faulted : Bool
  trace : List Action

/-! ## The functions of `vmod_memcached.c` -/

/-- The settings `init_function` installs on `VCL_EVENT_LOAD` (a zeroed allocation,
then the three defaults). -/
def init_function : vmod_mc_vcl_settings :=
  { pool := none
    pool_timeout_msec := POOL_TIMEOUT_MSEC
    error_int := POOL_ERROR_INT
    error_str := StrPtr.null
    error_str_value := List.replicate 128 0 }

/-- The `struct timespec wait` that `get_memcached` fills in. -/
def get_memcached_wait (settings : vmod_mc_vcl_settings) : timespec :=
  { tv_nsec := wrapLong (1000 * 1000 * Int.tmod settings.pool_timeout_msec 1000)
    tv_sec := Int.tdiv settings.pool_timeout_msec 1000 }

/-- C `get_memcached`: the connection it returns (`some none` is a NULL return,
`none` the failed `AN(settings->pool)`). -/
def get_memcached (L : Lib) (settings : vmod_mc_vcl_settings) : Run (Option memcached_st) :=
  match settings.pool with
  | none => { result := none, trace := [] }
  | some pool =>
    let wait := get_memcached_wait settings
    let fetched := L.memcached_pool_fetch pool wait
    { result := some (if fetched.2 = MEMCACHED_SUCCESS then fetched.1 else none)
      trace := [Action.pool_fetch pool wait fetched.1 fetched.2] }

/-- C `release_memcached`. -/
def release_memcached (settings : vmod_mc_vcl_settings) (mc : memcached_st) : List Action :=
  [Action.pool_release settings.pool mc]

/-- The two `VSLb(ctx->req->vsl, SLT_Error, ...)` lines every command writes when
`rc != MEMCACHED_SUCCESS`: the formatted `memcached_strerror`, then the last error
message when the library has one. -/
def log_error (L : Lib) (fmt : String) (mc : memcached_st) (rc : memcached_return_t) :
    List Action :=
  Action.log SltTag.Error fmt (some (L.memcached_strerror mc rc)) ::
    (match L.memcached_last_error_message mc with
     | some msg => [Action.log SltTag.Error "%s" (some msg)]
     | none => [])

/-- Modelled from the spec: the host scratch allocator (Varnish `WS_Copy`, not part
of the source file), "a copy-into-request-lifetime-buffer primitive"; called with
length `-1` it copies the whole C string. -/
def WS_Copy (str : List Nat) : StrPtr := StrPtr.ws str

/-- C `vmod_servers`. -/
def vmod_servers (L : Lib) (settings : vmod_mc_vcl_settings) (config : List Nat) : Conf :=
  match settings.pool with
  | some _ => { settings := settings, faulted := true, trace := [] }
  | none =>
    let built : Option memcached_pool_st × List Action :=
      if (strcasestr config POOL_MAX_CONN_PREFIX).isSome then
        let pool := L.memcached_pool config (strlen config)
        (pool, [Action.pool_create config (strlen config) pool,
                Action.log SltTag.Debug "memcached pool config \x27%s\x27" (some config)])
      else
        let pool_len := strlen config + strlen POOL_MAX_CONN_PARAM
        let pool_str := strcat (strcpy config) POOL_MAX_CONN_PARAM
        let pool := L.memcached_pool pool_str pool_len
        (pool, [Action.pool_create pool_str pool_len pool,
                Action.log SltTag.Debug "memcached pool config \x27%s\x27" (some pool_str)])
    let settings1 := { settings with pool := built.1 }
    match built.1 with
    | none =>
      { settings := settings1
        faulted := true
        trace := built.2 ++
          [Action.check_configuration config (strlen config),
           Action.log SltTag.Error "memcached servers() error" none,
           Action.log SltTag.Error "%s"
             (some (L.libmemcached_check_configuration config (strlen config)))] }
    | some _ => { settings := settings1, faulted := false, trace := built.2 }

/-- C `vmod_error_string`. -/
def vmod_error_string (settings : vmod_mc_vcl_settings) (string : List Nat) : Conf :=
  let copied := strncpy settings.error_str_value string 128
  let terminated := copied.set (128 - 1) 0
  { settings := { settings with error_str_value := terminated
                                error_str := StrPtr.error_str_value }
    faulted := false
    trace := [] }

/-- C `vmod_pool_timeout_msec`. -/
def vmod_pool_timeout_msec (settings : vmod_mc_vcl_settings) (timeout : Int) : Conf :=
  { settings := { settings with pool_timeout_msec := timeout }
    faulted := false
    trace := [] }

/-- C `vmod_set`. -/
def vmod_set (L : Lib) (settings : vmod_mc_vcl_settings) (key value : List Nat)
    (expiration flags : Int) : Run Unit :=
  let got := get_memcached L settings
  match got.result with
  | none => { result := none, trace := got.trace }
  | some none => { result := some (), trace := got.trace }
  | some (some mc) =>
    let rc := L.memcached_set mc key (strlen key) value (strlen value) expiration (toU32 flags)
    { result := some ()
      trace := got.trace ++
        [Action.cache_op mc
          (CacheOp.set key (strlen key) value (strlen value) expiration (toU32 flags))] ++
        release_memcached settings mc ++
        (if rc ≠ MEMCACHED_SUCCESS then log_error L "memcached set() error: %s" mc rc else []) }

/-- C `vmod_get`. -/
def vmod_get (L : Lib) (settings : vmod_mc_vcl_settings) (key : List Nat) : Run StrPtr :=
  let got := get_memcached L settings
  match got.result with
  | none => { result := none, trace := got.trace }
  | some none => { result := some settings.error_str, trace := got.trace }
  | some (some mc) =>
    let fetched := L.memcached_get mc key (strlen key)
    let value := fetched.1
    let rc := fetched.2
    let done := got.trace ++ [Action.cache_op mc (CacheOp.get key (strlen key))] ++
      release_memcached settings mc
    if rc ≠ MEMCACHED_SUCCESS then
      { result := some settings.error_str
        trace := done ++ log_error L "memcached get() error: %s" mc rc }
    else
      match value with
      | none => { result := some settings.error_str, trace := done }
      | some v => { result := some (WS_Copy v), trace := done }

/-- The shared body of the four counter commands, which differ in the library call
(`call mc` gives its result code and the content of `value` afterwards), the
operation recorded and the text of the error line. -/
def counter_command (L : Lib) (settings : vmod_mc_vcl_settings)
    (call : memcached_st → memcached_return_t × Nat) (op : CacheOp) (fmt : String) :
    Run Int :=
  let got := get_memcached L settings
  match got.result with
  | none => { result := none, trace := got.trace }
  | some none => { result := some settings.error_int, trace := got.trace }
  | some (some mc) =>
    let called := call mc
    let rc := called.1
    let value := called.2 % 2 ^ 64
    let done := got.trace ++ [Action.cache_op mc op] ++ release_memcached settings mc
    if rc ≠ MEMCACHED_SUCCESS then
      { result := some settings.error_int, trace := done ++ log_error L fmt mc rc }
    else
      { result := some (toVclInt value), trace := done }

/-- C `vmod_incr`. -/
def vmod_incr (L : Lib) (settings : vmod_mc_vcl_settings) (key : List Nat) (offset : Int) :
    Run Int :=
  counter_command L settings
    (fun mc => L.memcached_increment mc key (strlen key) (toU32 offset))
    (CacheOp.increment key (strlen key) (toU32 offset))
    "memcached increment() error: %s"

/-- C `vmod_decr`. -/
def vmod_decr (L : Lib) (settings : vmod_mc_vcl_settings) (key : List Nat) (offset : Int) :
    Run Int :=
  counter_command L settings
    (fun mc => L.memcached_decrement mc key (strlen key) (toU32 offset))
    (CacheOp.decrement key (strlen key) (toU32 offset))
    "memcached decrement() error: %s"

/-- C `vmod_incr_set`. -/
def vmod_incr_set (L : Lib) (settings : vmod_mc_vcl_settings) (key : List Nat)
    (offset initial expiration : Int) : Run Int :=
  counter_command L settings
    (fun mc => L.memcached_increment_with_initial mc key (strlen key) (toU64 offset)
      (toU64 initial) expiration)
    (CacheOp.increment_with_initial key (strlen key) (toU64 offset) (toU64 initial) expiration)
    "memcached increment_with_initial() error: %s"

/-- C `vmod_decr_set`. -/
def vmod_decr_set (L : Lib) (settings : vmod_mc_vcl_settings) (key : List Nat)
    (offset initial expiration : Int) : Run Int :=
  counter_command L settings
    (fun mc => L.memcached_decrement_with_initial mc key (strlen key) (toU64 offset)
      (toU64 initial) expiration)
    (CacheOp.decrement_with_initial key (strlen key) (toU64 offset) (toU64 initial) expiration)
    "memcached decrement_with_initial() error: %s"

/-! ## Notions used to state the properties -/

/-- The offsets, counted from `i`, at which `needle` occurs in `hay` ignoring letter
case. -/
def occurrencesFrom (needle : List Nat) : Nat → List Nat → List Nat
  | i, [] => if casePrefix needle [] then [i] else []
  | i, h :: hs =>
    (if casePrefix needle (h :: hs) then [i] else []) ++ occurrencesFrom needle (i + 1) hs

/-- The offsets at which `needle` occurs in `hay` ignoring letter case. -/
def occurrences (needle hay : List Nat) : List Nat := occurrencesFrom needle 0 hay

/-- The arguments of the `memcached_pool` calls of a trace, in order: each one is an
assignment to `settings->pool`. -/
def poolCreates : List Action → List (List Nat × Nat)
  | [] => []
  | Action.pool_create config len _ :: rest => (config, len) :: poolCreates rest
  | _ :: rest => poolCreates rest

/-- Number of `memcached_pool_release` calls in a trace. -/
def releases : List Action → Nat
  | [] => 0
  | Action.pool_release _ _ :: rest => releases rest + 1
  | _ :: rest => releases rest

/-- Number of `memcached_pool_fetch` calls in a trace that gave a connection with
`MEMCACHED_SUCCESS`. -/
def leases : List Action → Nat
  | [] => 0
  | Action.pool_fetch _ _ (some _) rc :: rest =>
    (if rc = MEMCACHED_SUCCESS then 1 else 0) + leases rest
  | _ :: rest => leases rest

/-- Is the action a log line? -/
def Action.isLog : Action → Bool
  | Action.log _ _ _ => true
  | _ => false

/-- Shape (a) of a command: one fetch from `pool` that gave no usable connection, and
nothing else. -/
def FailedAcquire (pool : memcached_pool_st) (trace : List Action) : Prop :=
  ∃ wait mc rc, (mc = none ∨ rc ≠ MEMCACHED_SUCCESS) ∧
    trace = [Action.pool_fetch pool wait mc rc]

/-- Shape (b) of a command: a successful fetch of `mc` from `pool`, one cache operation
on `mc`, one release of `mc` to `pool`, then log lines only. -/
def LeasedOnce (pool : memcached_pool_st) (trace : List Action) : Prop :=
  ∃ wait mc op logs, (∀ a ∈ logs, a.isLog = true) ∧
    trace = Action.pool_fetch pool wait (some mc) MEMCACHED_SUCCESS ::
      Action.cache_op mc op :: Action.pool_release (some pool) mc :: logs

/-- One configuration call of a VCL. -/
inductive ConfigCall where
  | servers (config : List Nat)
  | error_string (string : List Nat)
  | pool_timeout_msec (timeout : Int)
  deriving DecidableEq

/-- Effect of one configuration call. -/
def configure (L : Lib) (settings : vmod_mc_vcl_settings) : ConfigCall → Conf
  | ConfigCall.servers config => vmod_servers L settings config
  | ConfigCall.error_string string => vmod_error_string settings string
  | ConfigCall.pool_timeout_msec timeout => vmod_pool_timeout_msec settings timeout

/-- A sequence of configuration calls on one settings record, in order; a failed
assertion stops the process, so no later call runs. -/
def runConfig (L : Lib) : vmod_mc_vcl_settings → List ConfigCall → Conf
  | settings, [] => { settings := settings, faulted := false, trace := [] }
  | settings, call :: calls =>
    let first := configure L settings call
    if first.faulted then first
    else
      let later := runConfig L first.settings calls
      { settings := later.settings
        faulted := later.faulted
        trace := first.trace ++ later.trace }

/-- A library every call of which has a fixed result, for concrete evaluations. -/
def fixedLib (pool : Option memcached_pool_st)
    (fetch : Option memcached_st × memcached_return_t)
    (get : Option (List Nat) × memcached_return_t)
    (counter : memcached_return_t × Nat) : Lib :=
  { memcached_pool := fun _ _ => pool
    memcached_pool_fetch := fun _ _ => fetch
    memcached_set := fun _ _ _ _ _ _ _ => counter.1
    memcached_get := fun _ _ _ => get
    memcached_increment := fun _ _ _ _ => counter
    memcached_decrement := fun _ _ _ _ => counter
    memcached_increment_with_initial := fun _ _ _ _ _ _ => counter
    memcached_decrement_with_initial := fun _ _ _ _ _ _ => counter
    memcached_strerror := fun _ _ => lit "SOME ERROR"
    memcached_last_error_message := fun _ => none
    libmemcached_check_configuration := fun _ _ => lit "bad configuration" }

/-- Settings as loaded, after a `servers` call that built pool 1. -/
def readySettings : vmod_mc_vcl_settings :=
  { init_function with pool := some { id := 1 } }

/-- The actions of a command, for every state of the settings and every result of
the library: `op` is the command's cache operation, `rc mc` the code the library
gives for it on the connection `mc`, `fmt` the format of the command's error line.

* pool absent: nothing at all (the assertion in connection acquisition fails first);
* the fetch gave no connection or a code other than `MEMCACHED_SUCCESS`: that one
  fetch, recorded with the library's own results, and nothing else;
* the fetch gave `mc` with `MEMCACHED_SUCCESS`: the fetch, the operation `op` on `mc`,
  the release of `mc` to the same pool, and then the error lines when `rc mc` is not
  `MEMCACHED_SUCCESS`, nothing when it is. -/
def CommandActions (L : Lib) (settings : vmod_mc_vcl_settings) (op : CacheOp)
    (rc : memcached_st → memcached_return_t) (fmt : String) (trace : List Action) : Prop :=
  (settings.pool = none → trace = []) ∧
    ∀ pool, settings.pool = some pool →
      (((L.memcached_pool_fetch pool (get_memcached_wait settings)).1 = none ∨
          (L.memcached_pool_fetch pool (get_memcached_wait settings)).2 ≠ MEMCACHED_SUCCESS) →
        trace = [Action.pool_fetch pool (get_memcached_wait settings)
          (L.memcached_pool_fetch pool (get_memcached_wait settings)).1
          (L.memcached_pool_fetch pool (get_memcached_wait settings)).2]) ∧
      ∀ mc, L.memcached_pool_fetch pool (get_memcached_wait settings)
          = (some mc, MEMCACHED_SUCCESS) →
        trace = Action.pool_fetch pool (get_memcached_wait settings) (some mc)
            MEMCACHED_SUCCESS ::
          Action.cache_op mc op :: Action.pool_release (some pool) mc ::
          (if rc mc ≠ MEMCACHED_SUCCESS then log_error L fmt mc (rc mc) else [])

/-- In a trace every successful fetch is matched by a release and there is no other
release: the two counts agree, and a command fetches at most once. -/
def ReleasedOncePerLease (trace : List Action) : Prop :=
  releases trace = leases trace ∧ leases trace ≤ 1

/-- A counter command gives the configured `error_int` when no connection was
acquired and when the library call on the acquired connection reports a code other
than `MEMCACHED_SUCCESS`; `call mc` is the library call's result. -/
def ErrorIntOnFailure (L : Lib) (settings : vmod_mc_vcl_settings)
    (call : memcached_st → memcached_return_t × Nat) (run : Run Int) : Prop :=
  ((get_memcached L settings).result = some none → run.result = some settings.error_int) ∧
    ∀ mc, (get_memcached L settings).result = some (some mc) →
      (call mc).1 ≠ MEMCACHED_SUCCESS → run.result = some settings.error_int

/-- A counter command that acquired a connection and whose library call reports
`MEMCACHED_SUCCESS` with the 64-bit counter value `v` returns `v` read as a signed
64-bit integer: `v` itself below `2 ^ 63`, `v - 2 ^ 64` from there on. -/
def SignedCounterOnSuccess (L : Lib) (settings : vmod_mc_vcl_settings)
    (call : memcached_st → memcached_return_t × Nat) (run : Run Int) : Prop :=
  ∀ mc v, (get_memcached L settings).result = some (some mc) →
    call mc = (MEMCACHED_SUCCESS, v) → v < 2 ^ 64 →
      run.result = some (if v < 2 ^ 63 then (v : Int) else (v : Int) - 2 ^ 64) ∧
        (v < 2 ^ 63 → run.result = some (v : Int) ∧ run.result ≠ some POOL_ERROR_INT) ∧
        (2 ^ 63 ≤ v → ∃ r : Int, run.result = some r ∧ r < 0)

/-- A command stopped by a failed assertion before it did anything. -/
def FaultsAtOnce {α : Type} (run : Run α) : Prop :=
  run.result = none ∧ run.trace = []

/-- A failing `get` returns the pointer `p`: when no connection was acquired, when the
library reports a code other than `MEMCACHED_SUCCESS`, and when it reports success
with a NULL value. -/
def FailingGetReturns (L : Lib) (settings : vmod_mc_vcl_settings) (key : List Nat)
    (p : StrPtr) : Prop :=
  ((get_memcached L settings).result = some none →
      (vmod_get L settings key).result = some p) ∧
    ∀ mc, (get_memcached L settings).result = some (some mc) →
      ((L.memcached_get mc key (strlen key)).2 ≠ MEMCACHED_SUCCESS →
        (vmod_get L settings key).result = some p) ∧
      (L.memcached_get mc key (strlen key) = (none, MEMCACHED_SUCCESS) →
        (vmod_get L settings key).result = some p)

/-! ## Properties -/

theorem get_memcached_of_pool (L : Lib) (settings : vmod_mc_vcl_settings)
    (pool : memcached_pool_st) (hpool : settings.pool = some pool) :
    get_memcached L settings =
      { result := some (if (L.memcached_pool_fetch pool (get_memcached_wait settings)).2
            = MEMCACHED_SUCCESS
          then (L.memcached_pool_fetch pool (get_memcached_wait settings)).1 else none)
        trace := [Action.pool_fetch pool (get_memcached_wait settings)
          (L.memcached_pool_fetch pool (get_memcached_wait settings)).1
          (L.memcached_pool_fetch pool (get_memcached_wait settings)).2] } := by
  simp [get_memcached, hpool]

theorem get_memcached_no_pool (L : Lib) (settings : vmod_mc_vcl_settings)
    (hpool : settings.pool = none) :
    get_memcached L settings = { result := none, trace := [] } := by
  simp [get_memcached, hpool]

theorem wait_of_nonneg (settings : vmod_mc_vcl_settings)
    (h0 : 0 ≤ settings.pool_timeout_msec) :
    get_memcached_wait settings =
      { tv_sec := settings.pool_timeout_msec / 1000
        tv_nsec := settings.pool_timeout_msec % 1000 * 1000000 } := by
  have hm : Int.tmod settings.pool_timeout_msec 1000 = settings.pool_timeout_msec % 1000 :=
    Int.tmod_eq_emod h0 (by norm_num)
  have hd : Int.tdiv settings.pool_timeout_msec 1000 = settings.pool_timeout_msec / 1000 :=
    Int.tdiv_eq_ediv h0 (by norm_num)
  have hlo : 0 ≤ settings.pool_timeout_msec % 1000 := Int.emod_nonneg _ (by norm_num)
  have hhi : settings.pool_timeout_msec % 1000 < 1000 := Int.emod_lt_of_pos _ (by norm_num)
  have hw : wrapLong (1000 * 1000 * (settings.pool_timeout_msec % 1000)) =
      settings.pool_timeout_msec % 1000 * 1000000 := by
    unfold wrapLong
    omega
  simp only [get_memcached_wait, hm, hd, hw]

/-- C10: after `pool_timeout_msec(t)` with `0 ≤ t`, however large, the wait that
connection acquisition hands to the pool's fetch has `tv_sec = t / 1000` and
`tv_nsec = (t % 1000) * 1000000`, a normalised duration of exactly `t` milliseconds
(zero for `t = 0`); with the default settings it is 3 seconds and 0 nanoseconds. -/
theorem pool_timeout_wait (L : Lib) (settings : vmod_mc_vcl_settings)
    (pool : memcached_pool_st) (t : Int)
    (hpool : settings.pool = some pool) (h0 : 0 ≤ t) :
    (get_memcached L (vmod_pool_timeout_msec settings t).settings).trace =
        [Action.pool_fetch pool { tv_sec := t / 1000, tv_nsec := t % 1000 * 1000000 }
          (L.memcached_pool_fetch pool
            { tv_sec := t / 1000, tv_nsec := t % 1000 * 1000000 }).1
          (L.memcached_pool_fetch pool
            { tv_sec := t / 1000, tv_nsec := t % 1000 * 1000000 }).2] ∧
      0 ≤ t % 1000 * 1000000 ∧ t % 1000 * 1000000 < 1000000000 ∧
      t / 1000 * 1000 + t % 1000 * 1000000 / 1000000 = t ∧
      (t = 0 → get_memcached_wait (vmod_pool_timeout_msec settings t).settings =
        { tv_sec := 0, tv_nsec := 0 }) ∧
      get_memcached_wait init_function = { tv_sec := 3, tv_nsec := 0 } := by
  have hw := wait_of_nonneg (vmod_pool_timeout_msec settings t).settings
    (by simpa [vmod_pool_timeout_msec] using h0)
  have hp : (vmod_pool_timeout_msec settings t).settings.pool = some pool := by
    simpa [vmod_pool_timeout_msec] using hpool
  have ht : (vmod_pool_timeout_msec settings t).settings.pool_timeout_msec = t := rfl
  rw [ht] at hw
  refine ⟨?_, ?_, ?_, ?_, ?_, by decide⟩
  · rw [get_memcached_of_pool L _ pool hp, hw]
  · omega
  · omega
  · omega
  · intro h
    rw [hw, h]
    rfl

/-- Witness of C10: a timeout of 2500 ms is fetched with a wait of 2 s and 500000000 ns. -/
theorem pool_timeout_wait_witness :
    (get_memcached (fixedLib none (none, 1) (none, 1) (1, 0))
        (vmod_pool_timeout_msec readySettings 2500).settings).trace =
      [Action.pool_fetch { id := 1 } { tv_sec := 2, tv_nsec := 500000000 } none 1] :=
  (pool_timeout_wait (fixedLib none (none, 1) (none, 1) (1, 0)) readySettings { id := 1 } 2500
    rfl (by decide)).1

/-- C1: with a pool present `get` always returns; it returns the configured
`error_str` when no connection was acquired, when the library reports a code other
than success, and when it reports success with a NULL value; when it reports success
with the value `v` it returns a workspace copy of `v`. -/
theorem vmod_get_result (L : Lib) (settings : vmod_mc_vcl_settings) (key : List Nat)
    (pool : memcached_pool_st) (hpool : settings.pool = some pool) :
    (vmod_get L settings key).result ≠ none ∧
      ((get_memcached L settings).result = some none →
        (vmod_get L settings key).result = some settings.error_str) ∧
      (∀ mc, (get_memcached L settings).result = some (some mc) →
        ((L.memcached_get mc key (strlen key)).2 ≠ MEMCACHED_SUCCESS →
          (vmod_get L settings key).result = some settings.error_str) ∧
        (L.memcached_get mc key (strlen key) = (none, MEMCACHED_SUCCESS) →
          (vmod_get L settings key).result = some settings.error_str) ∧
        (∀ v, L.memcached_get mc key (strlen key) = (some v, MEMCACHED_SUCCESS) →
          (vmod_get L settings key).result = some (StrPtr.ws v) ∧
          (StrPtr.ws v).deref settings = some v)) := by
  have hg := get_memcached_of_pool L settings pool hpool
  refine ⟨?_, ?_, ?_⟩
  · unfold vmod_get
    rw [hg]
    dsimp only
    split <;> rename_i h
    · simp at h
    · simp
    · split
      · simp
      · split <;> simp
  · intro h
    simp [vmod_get, h]
  · intro mc h
    refine ⟨?_, ?_, ?_⟩
    · intro hrc
      simp [vmod_get, h, hrc]
    · intro hv
      simp [vmod_get, h, hv]
    · intro v hv
      simp [vmod_get, h, hv, WS_Copy, StrPtr.deref]

/-- Witness of C1: with pool 1, connection 7 and the library answering "v", `get`
returns a workspace copy of "v". -/
theorem vmod_get_result_witness :
    (vmod_get (fixedLib none (some { id := 7 }, 0) (some (lit "v"), 0) (0, 0))
        readySettings (lit "k")).result = some (StrPtr.ws (lit "v")) ∧
      (StrPtr.ws (lit "v")).deref readySettings = some (lit "v") :=
  (vmod_get_result (fixedLib none (some { id := 7 }, 0) (some (lit "v"), 0) (0, 0))
    readySettings (lit "k") { id := 1 } rfl).2.2 { id := 7 } rfl |>.2.2 (lit "v") rfl

theorem counter_command_fails_with_error_int (L : Lib) (settings : vmod_mc_vcl_settings)
    (call : memcached_st → memcached_return_t × Nat) (op : CacheOp) (fmt : String) :
    ErrorIntOnFailure L settings call (counter_command L settings call op fmt) := by
  refine ⟨?_, ?_⟩
  · intro h
    simp [counter_command, h]
  · intro mc h hrc
    simp [counter_command, h, hrc]

theorem toVclInt_of_lt (v : Nat) (hv : v < 2 ^ 64) :
    toVclInt (v % 2 ^ 64) = if v < 2 ^ 63 then (v : Int) else (v : Int) - 2 ^ 64 := by
  have h1 : v % 2 ^ 64 = v := Nat.mod_eq_of_lt hv
  unfold toVclInt
  rw [Nat.mod_mod, h1]

theorem counter_command_signed (L : Lib) (settings : vmod_mc_vcl_settings)
    (call : memcached_st → memcached_return_t × Nat) (op : CacheOp) (fmt : String) :
    SignedCounterOnSuccess L settings call (counter_command L settings call op fmt) := by
  intro mc v h hcall hv
  have hres : (counter_command L settings call op fmt).result =
      some (if v < 2 ^ 63 then (v : Int) else (v : Int) - 2 ^ 64) := by
    simp only [counter_command, h, hcall]
    simp only [ne_eq, not_true_eq_false, if_false]
    rw [toVclInt_of_lt v hv]
  refine ⟨hres, ?_, ?_⟩
  · intro hlt
    rw [hres, if_pos hlt]
    refine ⟨rfl, ?_⟩
    intro hc
    have hc2 : (v : Int) = POOL_ERROR_INT := Option.some.inj hc
    unfold POOL_ERROR_INT at hc2
    omega
  · intro hge
    refine ⟨(v : Int) - 2 ^ 64, ?_, ?_⟩
    · rw [hres, if_neg (by omega)]
    · omega

/-- C2: with a pool present each of `incr`, `decr`, `incr_set` and `decr_set` returns
the configured `error_int` when no connection was acquired and when the library call
reports a code other than success; `error_int` is -1 in the settings as loaded. -/
theorem counter_commands_error_int (L : Lib) (settings : vmod_mc_vcl_settings)
    (key : List Nat) (offset initial expiration : Int)
    (pool : memcached_pool_st) (hpool : settings.pool = some pool) :
    (∃ mc, (get_memcached L settings).result = some mc) ∧
      ErrorIntOnFailure L settings
        (fun mc => L.memcached_increment mc key (strlen key) (toU32 offset))
        (vmod_incr L settings key offset) ∧
      ErrorIntOnFailure L settings
        (fun mc => L.memcached_decrement mc key (strlen key) (toU32 offset))
        (vmod_decr L settings key offset) ∧
      ErrorIntOnFailure L settings
        (fun mc => L.memcached_increment_with_initial mc key (strlen key) (toU64 offset)
          (toU64 initial) expiration)
        (vmod_incr_set L settings key offset initial expiration) ∧
      ErrorIntOnFailure L settings
        (fun mc => L.memcached_decrement_with_initial mc key (strlen key) (toU64 offset)
          (toU64 initial) expiration)
        (vmod_decr_set L settings key offset initial expiration) ∧
      init_function.error_int = -1 :=
  ⟨⟨_, congrArg Run.result (get_memcached_of_pool L settings pool hpool)⟩,
    counter_command_fails_with_error_int L settings _ _ _, counter_command_fails_with_error_int L settings _ _ _,
    counter_command_fails_with_error_int L settings _ _ _, counter_command_fails_with_error_int L settings _ _ _,
    rfl⟩

/-- Witness of C2: with pool 1 and a fetch that times out (code 31), `decr_set`
returns -1. -/
theorem counter_commands_error_int_witness :
    (vmod_decr_set (fixedLib none (none, 31) (none, 0) (0, 5)) readySettings (lit "k") 1 0 0).result
      = some (-1) :=
  (counter_commands_error_int (fixedLib none (none, 31) (none, 0) (0, 5)) readySettings
    (lit "k") 1 0 0 { id := 1 } rfl).2.2.2.2.1.1 rfl

/-- C7 as amended: when a connection was acquired and the library reports success with
the unsigned 64-bit counter value `v`, each of `incr`, `decr`, `incr_set` and `decr_set`
returns `v` read as a signed 64-bit integer: `v` itself, which differs from the default
`error_int`, when `v < 2 ^ 63`, and the negative `v - 2 ^ 64` otherwise. -/
theorem counter_commands_signed_value (L : Lib) (settings : vmod_mc_vcl_settings)
    (key : List Nat) (offset initial expiration : Int) :
    SignedCounterOnSuccess L settings
        (fun mc => L.memcached_increment mc key (strlen key) (toU32 offset))
        (vmod_incr L settings key offset) ∧
      SignedCounterOnSuccess L settings
        (fun mc => L.memcached_decrement mc key (strlen key) (toU32 offset))
        (vmod_decr L settings key offset) ∧
      SignedCounterOnSuccess L settings
        (fun mc => L.memcached_increment_with_initial mc key (strlen key) (toU64 offset)
          (toU64 initial) expiration)
        (vmod_incr_set L settings key offset initial expiration) ∧
      SignedCounterOnSuccess L settings
        (fun mc => L.memcached_decrement_with_initial mc key (strlen key) (toU64 offset)
          (toU64 initial) expiration)
        (vmod_decr_set L settings key offset initial expiration) :=
  ⟨counter_command_signed L settings _ _ _, counter_command_signed L settings _ _ _,
    counter_command_signed L settings _ _ _, counter_command_signed L settings _ _ _⟩

/-- Witness of C7 as amended: the counter value 6 is returned as 6. -/
theorem counter_commands_signed_value_witness :
    (vmod_incr (fixedLib none (some { id := 7 }, 0) (none, 0) (0, 6)) readySettings
      (lit "k") 1).result = some 6 :=
  ((counter_commands_signed_value (fixedLib none (some { id := 7 }, 0) (none, 0) (0, 6))
    readySettings (lit "k") 1 0 0).1 { id := 7 } 6 rfl rfl (by decide)).2.1 (by decide) |>.1

/-- Counterexample to C7: with a connection acquired and the library reporting success
with the counter value `2 ^ 64 - 1`, `incr` returns -1, which is not that value and is
the default `error_int`. -/
theorem counter_value_counterexample :
    (get_memcached (fixedLib none (some { id := 7 }, 0) (none, 0) (0, 18446744073709551615))
        readySettings).result = some (some { id := 7 }) ∧
      (fixedLib none (some { id := 7 }, 0) (none, 0) (0, 18446744073709551615)).memcached_increment
        { id := 7 } (lit "k") (strlen (lit "k")) (toU32 1)
        = (MEMCACHED_SUCCESS, 18446744073709551615) ∧
      (vmod_incr (fixedLib none (some { id := 7 }, 0) (none, 0) (0, 18446744073709551615))
        readySettings (lit "k") 1).result = some (-1) ∧
      (-1 : Int) ≠ 18446744073709551615 ∧
      readySettings.error_int = -1 := by
  decide

theorem releases_of_logs (logs : List Action) (h : ∀ a ∈ logs, a.isLog = true) :
    releases logs = 0 ∧ leases logs = 0 := by
  induction logs with
  | nil => exact ⟨rfl, rfl⟩
  | cons a rest ih =>
    have ha : a.isLog = true := h a (List.mem_cons_self a rest)
    have hr := ih (fun b hb => h b (List.mem_cons_of_mem a hb))
    cases a <;> simp [Action.isLog] at ha
    simpa [releases, leases] using hr

theorem log_error_isLog (L : Lib) (fmt : String) (mc : memcached_st)
    (rc : memcached_return_t) : ∀ a ∈ log_error L fmt mc rc, a.isLog = true := by
  intro a ha
  unfold log_error at ha
  cases hm : L.memcached_last_error_message mc with
  | none =>
    rw [hm] at ha
    simp at ha
    subst ha
    rfl
  | some msg =>
    rw [hm] at ha
    simp at ha
    rcases ha with ha | ha <;> subst ha <;> rfl

theorem released_once_of_actions (L : Lib) (settings : vmod_mc_vcl_settings) (op : CacheOp)
    (rc : memcached_st → memcached_return_t) (fmt : String) (trace : List Action)
    (h : CommandActions L settings op rc fmt trace) : ReleasedOncePerLease trace := by
  cases hp : settings.pool with
  | none =>
    rw [h.1 hp]
    exact ⟨rfl, Nat.zero_le _⟩
  | some pool =>
    obtain ⟨hfail, hok⟩ := h.2 pool hp
    by_cases hrc : (L.memcached_pool_fetch pool (get_memcached_wait settings)).2
        = MEMCACHED_SUCCESS
    · cases hmc : (L.memcached_pool_fetch pool (get_memcached_wait settings)).1 with
      | none =>
        rw [hfail (Or.inl hmc), hmc]
        exact ⟨rfl, Nat.zero_le _⟩
      | some mc =>
        have hf : L.memcached_pool_fetch pool (get_memcached_wait settings)
            = (some mc, MEMCACHED_SUCCESS) := Prod.ext hmc hrc
        rw [hok mc hf]
        have hlogs : ∀ a ∈ (if rc mc ≠ MEMCACHED_SUCCESS then log_error L fmt mc (rc mc)
            else []), a.isLog = true := by
          intro a ha
          split at ha
          · exact log_error_isLog L fmt mc (rc mc) a ha
          · simp at ha
        have hl := releases_of_logs _ hlogs
        generalize (if rc mc ≠ MEMCACHED_SUCCESS then log_error L fmt mc (rc mc) else [])
          = logs at hl
        simp [ReleasedOncePerLease, releases, leases, hl.1, hl.2]
    · rw [hfail (Or.inr hrc)]
      cases hmc : (L.memcached_pool_fetch pool (get_memcached_wait settings)).1 with
      | none => exact ⟨rfl, Nat.zero_le _⟩
      | some mc => simp [ReleasedOncePerLease, releases, leases, hrc]

theorem get_memcached_failed (L : Lib) (settings : vmod_mc_vcl_settings)
    (pool : memcached_pool_st) (hpool : settings.pool = some pool)
    (h : (L.memcached_pool_fetch pool (get_memcached_wait settings)).1 = none ∨
      (L.memcached_pool_fetch pool (get_memcached_wait settings)).2 ≠ MEMCACHED_SUCCESS) :
    get_memcached L settings =
      { result := some none
        trace := [Action.pool_fetch pool (get_memcached_wait settings)
          (L.memcached_pool_fetch pool (get_memcached_wait settings)).1
          (L.memcached_pool_fetch pool (get_memcached_wait settings)).2] } := by
  rw [get_memcached_of_pool L settings pool hpool]
  rcases h with h | h
  · rw [h]
    simp
  · rw [if_neg h]

theorem get_memcached_leased (L : Lib) (settings : vmod_mc_vcl_settings)
    (pool : memcached_pool_st) (hpool : settings.pool = some pool) (mc : memcached_st)
    (h : L.memcached_pool_fetch pool (get_memcached_wait settings)
      = (some mc, MEMCACHED_SUCCESS)) :
    get_memcached L settings =
      { result := some (some mc)
        trace := [Action.pool_fetch pool (get_memcached_wait settings) (some mc)
          MEMCACHED_SUCCESS] } := by
  rw [get_memcached_of_pool L settings pool hpool, h]
  simp

theorem counter_command_actions (L : Lib) (settings : vmod_mc_vcl_settings)
    (call : memcached_st → memcached_return_t × Nat) (op : CacheOp) (fmt : String) :
    CommandActions L settings op (fun mc => (call mc).1) fmt
      (counter_command L settings call op fmt).trace := by
  refine ⟨?_, ?_⟩
  · intro hpool
    simp [counter_command, get_memcached_no_pool L settings hpool]
  · intro pool hpool
    refine ⟨?_, ?_⟩
    · intro h
      simp [counter_command, get_memcached_failed L settings pool hpool h]
    · intro mc h
      unfold counter_command
      rw [get_memcached_leased L settings pool hpool mc h]
      dsimp only
      split <;> simp [release_memcached, hpool]

theorem vmod_get_actions (L : Lib) (settings : vmod_mc_vcl_settings) (key : List Nat) :
    CommandActions L settings (CacheOp.get key (strlen key))
      (fun mc => (L.memcached_get mc key (strlen key)).2) "memcached get() error: %s"
      (vmod_get L settings key).trace := by
  refine ⟨?_, ?_⟩
  · intro hpool
    simp [vmod_get, get_memcached_no_pool L settings hpool]
  · intro pool hpool
    refine ⟨?_, ?_⟩
    · intro h
      simp [vmod_get, get_memcached_failed L settings pool hpool h]
    · intro mc h
      unfold vmod_get
      rw [get_memcached_leased L settings pool hpool mc h]
      dsimp only
      split
      · simp [release_memcached, hpool]
      · split <;> simp [release_memcached, hpool]

theorem vmod_set_actions (L : Lib) (settings : vmod_mc_vcl_settings) (key value : List Nat)
    (expiration flags : Int) :
    CommandActions L settings
      (CacheOp.set key (strlen key) value (strlen value) expiration (toU32 flags))
      (fun mc => L.memcached_set mc key (strlen key) value (strlen value) expiration
        (toU32 flags))
      "memcached set() error: %s"
      (vmod_set L settings key value expiration flags).trace := by
  refine ⟨?_, ?_⟩
  · intro hpool
    simp [vmod_set, get_memcached_no_pool L settings hpool]
  · intro pool hpool
    refine ⟨?_, ?_⟩
    · intro h
      simp [vmod_set, get_memcached_failed L settings pool hpool h]
    · intro mc h
      unfold vmod_set
      rw [get_memcached_leased L settings pool hpool mc h]
      simp [release_memcached, hpool]

/-- C3 as amended: for every state of the settings and every result of the fetch and
of the library call, the actions of each of the six commands are: nothing at all when
the pool is absent (the command stops on the assertion in connection acquisition); the
one failed fetch and nothing else (no cache operation, no log line, no release) when
the fetch gives no connection; and otherwise the successful fetch, the command's one
cache operation on the fetched connection, one release of that connection to the same
pool, and only then the error lines, present exactly when the library call failed.
Releases and successful fetches are equal in number, at most one each. -/
theorem command_actions (L : Lib) (settings : vmod_mc_vcl_settings)
    (key value : List Nat) (offset initial expiration flags : Int) :
    (CommandActions L settings
        (CacheOp.set key (strlen key) value (strlen value) expiration (toU32 flags))
        (fun mc => L.memcached_set mc key (strlen key) value (strlen value) expiration
          (toU32 flags))
        "memcached set() error: %s"
        (vmod_set L settings key value expiration flags).trace ∧
      CommandActions L settings (CacheOp.get key (strlen key))
        (fun mc => (L.memcached_get mc key (strlen key)).2) "memcached get() error: %s"
        (vmod_get L settings key).trace ∧
      CommandActions L settings (CacheOp.increment key (strlen key) (toU32 offset))
        (fun mc => (L.memcached_increment mc key (strlen key) (toU32 offset)).1)
        "memcached increment() error: %s"
        (vmod_incr L settings key offset).trace ∧
      CommandActions L settings (CacheOp.decrement key (strlen key) (toU32 offset))
        (fun mc => (L.memcached_decrement mc key (strlen key) (toU32 offset)).1)
        "memcached decrement() error: %s"
        (vmod_decr L settings key offset).trace ∧
      CommandActions L settings
        (CacheOp.increment_with_initial key (strlen key) (toU64 offset) (toU64 initial)
          expiration)
        (fun mc => (L.memcached_increment_with_initial mc key (strlen key) (toU64 offset)
          (toU64 initial) expiration).1)
        "memcached increment_with_initial() error: %s"
        (vmod_incr_set L settings key offset initial expiration).trace ∧
      CommandActions L settings
        (CacheOp.decrement_with_initial key (strlen key) (toU64 offset) (toU64 initial)
          expiration)
        (fun mc => (L.memcached_decrement_with_initial mc key (strlen key) (toU64 offset)
          (toU64 initial) expiration).1)
        "memcached decrement_with_initial() error: %s"
        (vmod_decr_set L settings key offset initial expiration).trace) ∧
      (ReleasedOncePerLease (vmod_set L settings key value expiration flags).trace ∧
        ReleasedOncePerLease (vmod_get L settings key).trace ∧
        ReleasedOncePerLease (vmod_incr L settings key offset).trace ∧
        ReleasedOncePerLease (vmod_decr L settings key offset).trace ∧
        ReleasedOncePerLease (vmod_incr_set L settings key offset initial expiration).trace ∧
        ReleasedOncePerLease (vmod_decr_set L settings key offset initial expiration).trace) ∧
      ∀ (fmt : String) (mc : memcached_st) (rc : memcached_return_t),
        ∀ a ∈ log_error L fmt mc rc, a.isLog = true := by
  have hset := vmod_set_actions L settings key value expiration flags
  have hget := vmod_get_actions L settings key
  have hincr := counter_command_actions L settings
    (fun mc => L.memcached_increment mc key (strlen key) (toU32 offset))
    (CacheOp.increment key (strlen key) (toU32 offset)) "memcached increment() error: %s"
  have hdecr := counter_command_actions L settings
    (fun mc => L.memcached_decrement mc key (strlen key) (toU32 offset))
    (CacheOp.decrement key (strlen key) (toU32 offset)) "memcached decrement() error: %s"
  have hincrset := counter_command_actions L settings
    (fun mc => L.memcached_increment_with_initial mc key (strlen key) (toU64 offset)
      (toU64 initial) expiration)
    (CacheOp.increment_with_initial key (strlen key) (toU64 offset) (toU64 initial) expiration)
    "memcached increment_with_initial() error: %s"
  have hdecrset := counter_command_actions L settings
    (fun mc => L.memcached_decrement_with_initial mc key (strlen key) (toU64 offset)
      (toU64 initial) expiration)
    (CacheOp.decrement_with_initial key (strlen key) (toU64 offset) (toU64 initial) expiration)
    "memcached decrement_with_initial() error: %s"
  exact ⟨⟨hset, hget, hincr, hdecr, hincrset, hdecrset⟩,
    ⟨released_once_of_actions _ _ _ _ _ _ hset, released_once_of_actions _ _ _ _ _ _ hget,
      released_once_of_actions _ _ _ _ _ _ hincr, released_once_of_actions _ _ _ _ _ _ hdecr,
      released_once_of_actions _ _ _ _ _ _ hincrset,
      released_once_of_actions _ _ _ _ _ _ hdecrset⟩,
    fun fmt mc rc => log_error_isLog L fmt mc rc⟩

/-- Witness of C3 as amended: a `set` that the library rejects (code 14) on connection 7
of pool 1 fetches, sets, releases and then writes its error line. -/
theorem command_actions_witness :
    (vmod_set (fixedLib none (some { id := 7 }, 0) (none, 0) (14, 0)) readySettings
        (lit "k") (lit "v") 0 0).trace
      = [Action.pool_fetch { id := 1 } { tv_sec := 3, tv_nsec := 0 } (some { id := 7 }) 0,
          Action.cache_op { id := 7 } (CacheOp.set (lit "k") 1 (lit "v") 1 0 0),
          Action.pool_release (some { id := 1 }) { id := 7 },
          Action.log SltTag.Error "memcached set() error: %s" (some (lit "SOME ERROR"))] :=
  ((command_actions (fixedLib none (some { id := 7 }, 0) (none, 0) (14, 0)) readySettings
    (lit "k") (lit "v") 1 0 0 0).1.1.2 { id := 1 } rfl).2 { id := 7 } rfl

/-- Counterexample to C3: on the settings as loaded (pool absent) `get` performs no
action at all, so its actions are neither a failed fetch followed by nothing nor a
successful fetch followed by an operation and a release. -/
theorem command_shapes_counterexample :
    init_function.pool = none ∧
      (vmod_get (fixedLib none (none, 31) (none, 0) (0, 0)) init_function (lit "k")).trace
        = [] ∧
      (¬ ∃ pool, FailedAcquire pool
        (vmod_get (fixedLib none (none, 31) (none, 0) (0, 0)) init_function (lit "k")).trace) ∧
      (¬ ∃ pool, LeasedOnce pool
        (vmod_get (fixedLib none (none, 31) (none, 0) (0, 0)) init_function
          (lit "k")).trace) := by
  have ht : (vmod_get (fixedLib none (none, 31) (none, 0) (0, 0)) init_function
      (lit "k")).trace = [] := by decide
  refine ⟨rfl, ht, ?_, ?_⟩
  · rw [ht]
    rintro ⟨pool, wait, mc, rc, -, h⟩
    exact List.noConfusion h
  · rw [ht]
    rintro ⟨pool, wait, mc, op, logs, -, h⟩
    exact List.noConfusion h

theorem counter_command_no_pool (L : Lib) (settings : vmod_mc_vcl_settings)
    (call : memcached_st → memcached_return_t × Nat) (op : CacheOp) (fmt : String)
    (hpool : settings.pool = none) :
    FaultsAtOnce (counter_command L settings call op fmt) := by
  simp [FaultsAtOnce, counter_command, get_memcached_no_pool L settings hpool]

/-- C8 as amended: on settings whose pool is absent every command is stopped by the
assertion in connection acquisition: it returns nothing and performs no fetch, no
cache operation, no release and no log line. -/
theorem commands_without_pool_fault (L : Lib) (settings : vmod_mc_vcl_settings)
    (key value : List Nat) (offset initial expiration flags : Int)
    (hpool : settings.pool = none) :
    FaultsAtOnce (vmod_set L settings key value expiration flags) ∧
      FaultsAtOnce (vmod_get L settings key) ∧
      FaultsAtOnce (vmod_incr L settings key offset) ∧
      FaultsAtOnce (vmod_decr L settings key offset) ∧
      FaultsAtOnce (vmod_incr_set L settings key offset initial expiration) ∧
      FaultsAtOnce (vmod_decr_set L settings key offset initial expiration) := by
  refine ⟨?_, ?_, counter_command_no_pool L settings _ _ _ hpool,
    counter_command_no_pool L settings _ _ _ hpool,
    counter_command_no_pool L settings _ _ _ hpool,
    counter_command_no_pool L settings _ _ _ hpool⟩
  · simp [FaultsAtOnce, vmod_set, get_memcached_no_pool L settings hpool]
  · simp [FaultsAtOnce, vmod_get, get_memcached_no_pool L settings hpool]

/-- Witness of C8 as amended: `get` on the settings as loaded. -/
theorem commands_without_pool_fault_witness :
    FaultsAtOnce (vmod_get (fixedLib none (none, 31) (none, 0) (0, 0)) init_function (lit "k")) :=
  (commands_without_pool_fault (fixedLib none (none, 31) (none, 0) (0, 0)) init_function
    (lit "k") (lit "v") 1 0 0 0 rfl).2.1

/-- Counterexample to C8: on the settings as loaded (no `servers` call) `get` and `incr`
return nothing, neither `error_str` nor `error_int`, whereas with a pool and a fetch
that times out (code 31) they return these sentinels. -/
theorem missing_pool_counterexample :
    init_function.pool = none ∧
      (vmod_get (fixedLib none (none, 31) (none, 0) (0, 0)) init_function (lit "k")).result
        = none ∧
      (vmod_incr (fixedLib none (none, 31) (none, 0) (0, 0)) init_function (lit "k") 1).result
        = none ∧
      (vmod_get (fixedLib none (none, 31) (none, 0) (0, 0)) readySettings (lit "k")).result
        = some readySettings.error_str ∧
      (vmod_incr (fixedLib none (none, 31) (none, 0) (0, 0)) readySettings (lit "k") 1).result
        = some readySettings.error_int := by
  decide

theorem failing_get_returns (L : Lib) (settings : vmod_mc_vcl_settings) (key : List Nat) :
    FailingGetReturns L settings key settings.error_str := by
  refine ⟨?_, ?_⟩
  · intro h
    simp [vmod_get, h]
  · intro mc h
    refine ⟨?_, ?_⟩
    · intro hrc
      simp [vmod_get, h, hrc]
    · intro hv
      simp [vmod_get, h, hv]

theorem strncpy_length (n : Nat) : ∀ dst src : List Nat, n ≤ (strncpy dst src n).length := by
  induction n with
  | zero => intro dst src; exact Nat.zero_le _
  | succ n ih =>
    intro dst src
    cases src with
    | nil => simpa [strncpy] using ih dst.tail []
    | cons c cs => simpa [strncpy] using ih dst.tail cs

theorem cstr_strncpy_set (n : Nat) : ∀ dst src : List Nat, (∀ b ∈ src, b ≠ 0) →
    cstr ((strncpy dst src (n + 1)).set n 0) = src.take n := by
  induction n with
  | zero =>
    intro dst src _
    cases src <;> simp [strncpy, cstr]
  | succ n ih =>
    intro dst src hsrc
    cases src with
    | nil => simp [strncpy, cstr]
    | cons c cs =>
      have hc : c ≠ 0 := hsrc c (List.mem_cons_self c cs)
      have hcs : ∀ b ∈ cs, b ≠ 0 := fun b hb => hsrc b (List.mem_cons_of_mem c hb)
      have h := ih dst.tail cs hcs
      unfold cstr at h ⊢
      rw [strncpy, List.set_cons_succ, List.takeWhile_cons]
      simp [hc, h]

/-- C4: after `error_string(X)`, for a C string `X`, every failing `get` (no
connection, a library error, or no value) returns the address of the settings' own
buffer, which holds the NUL-terminated string `X` when `X` has at most 127 bytes and
the first 127 bytes of `X` otherwise, never more than 127 bytes. -/
theorem error_string_failing_get (L : Lib) (settings : vmod_mc_vcl_settings)
    (X key : List Nat) (pool : memcached_pool_st)
    (hpool : settings.pool = some pool) (hX : ∀ b ∈ X, b ≠ 0) :
    (vmod_error_string settings X).faulted = false ∧
      (vmod_error_string settings X).settings.pool = some pool ∧
      FailingGetReturns L (vmod_error_string settings X).settings key
        StrPtr.error_str_value ∧
      StrPtr.error_str_value.deref (vmod_error_string settings X).settings
        = some (X.take 127) ∧
      (X.length ≤ 127 →
        StrPtr.error_str_value.deref (vmod_error_string settings X).settings = some X) ∧
      (X.take 127).length ≤ 127 ∧
      (vmod_error_string settings X).settings.error_str_value[127]? = some 0 := by
  have hd : StrPtr.error_str_value.deref (vmod_error_string settings X).settings
      = some (X.take 127) := by
    simp only [StrPtr.deref, vmod_error_string]
    exact congrArg some (cstr_strncpy_set 127 settings.error_str_value X hX)
  refine ⟨rfl, hpool, failing_get_returns L (vmod_error_string settings X).settings key,
    hd, ?_, ?_, ?_⟩
  · intro hlen
    rw [hd, List.take_of_length_le hlen]
  · simp
  · have hl := strncpy_length 128 settings.error_str_value X
    simp only [vmod_error_string]
    rw [List.getElem?_set_self]
    omega

/-- Witness of C4: `error_string("oops")`, then a `get` whose fetch times out. -/
theorem error_string_failing_get_witness :
    (vmod_get (fixedLib none (none, 31) (none, 0) (0, 0))
        (vmod_error_string readySettings (lit "oops")).settings (lit "k")).result
        = some StrPtr.error_str_value ∧
      StrPtr.error_str_value.deref (vmod_error_string readySettings (lit "oops")).settings
        = some (lit "oops") :=
  ⟨(error_string_failing_get (fixedLib none (none, 31) (none, 0) (0, 0)) readySettings
      (lit "oops") (lit "k") { id := 1 } rfl (by decide)).2.2.1.1 rfl,
    (error_string_failing_get (fixedLib none (none, 31) (none, 0) (0, 0)) readySettings
      (lit "oops") (lit "k") { id := 1 } rfl (by decide)).2.2.2.2.1 (by decide)⟩

theorem strcasestr_eq_none_iff (needle : List Nat) : ∀ (hay : List Nat) (i : Nat),
    strcasestr hay needle = none ↔ occurrencesFrom needle i hay = [] := by
  intro hay
  induction hay with
  | nil =>
    intro i
    by_cases h : casePrefix needle [] = true <;> simp [strcasestr, occurrencesFrom, h]
  | cons c cs ih =>
    intro i
    by_cases h : casePrefix needle (c :: cs) = true
    · simp [strcasestr, occurrencesFrom, h]
    · simp [strcasestr, occurrencesFrom, h, ih (i + 1)]

theorem casePrefix_eq_true_iff : ∀ needle hay : List Nat,
    casePrefix needle hay = true ↔
      (hay.take needle.length).map tolower = needle.map tolower := by
  intro needle
  induction needle with
  | nil => intro hay; simp [casePrefix]
  | cons n ns ih =>
    intro hay
    cases hay with
    | nil => simp [casePrefix]
    | cons h hs =>
      simp only [casePrefix, Bool.and_eq_true, beq_iff_eq, ih hs, List.length_cons,
        List.take_succ_cons, List.map_cons, List.cons.injEq]
      constructor
      · rintro ⟨h1, h2⟩
        exact ⟨h1.symm, h2⟩
      · rintro ⟨h1, h2⟩
        exact ⟨h1.symm, h2⟩

theorem casePrefix_no_straddle : ∀ needle xs ys : List Nat, (∀ c ∈ needle, tolower c ≠ 32) →
    casePrefix needle (xs ++ 32 :: ys) = true → casePrefix needle xs = true := by
  intro needle
  induction needle with
  | nil => intro xs ys _ _; cases xs <;> rfl
  | cons n ns ih =>
    intro xs ys hn h
    cases xs with
    | nil =>
      have h32 : tolower 32 = 32 := by decide
      simp only [List.nil_append, casePrefix, Bool.and_eq_true, beq_iff_eq, h32] at h
      exact absurd h.1 (hn n (List.mem_cons_self n ns))
    | cons x xs =>
      simp only [List.cons_append, casePrefix, Bool.and_eq_true, beq_iff_eq] at h ⊢
      exact ⟨h.1, ih xs ys (fun c hc => hn c (List.mem_cons_of_mem n hc)) h.2⟩

theorem occurrencesFrom_append (needle ys : List Nat) (hn : ∀ c ∈ needle, tolower c ≠ 32) :
    ∀ (xs : List Nat) (i : Nat), occurrencesFrom needle i xs = [] →
      occurrencesFrom needle i (xs ++ 32 :: ys)
        = occurrencesFrom needle (i + xs.length) (32 :: ys) := by
  intro xs
  induction xs with
  | nil => intro i _; rfl
  | cons x xs ih =>
    intro i h
    have hx : ¬ casePrefix needle (x :: xs) = true := by
      intro hp
      simp [occurrencesFrom, hp] at h
    have hrest : occurrencesFrom needle (i + 1) xs = [] := by
      simpa [occurrencesFrom, hx] using h
    have hx2 : ¬ casePrefix needle (x :: xs ++ 32 :: ys) = true := fun hp =>
      hx (casePrefix_no_straddle needle (x :: xs) ys hn hp)
    have hstep := ih (i + 1) hrest
    have hidx : i + 1 + xs.length = i + (x :: xs).length := by
      simp only [List.length_cons]
      omega
    rw [hidx] at hstep
    rw [← hstep]
    show occurrencesFrom needle i (x :: (xs ++ 32 :: ys)) = _
    have hx3 : ¬ casePrefix needle (x :: (xs ++ 32 :: ys)) = true := hx2
    simp [occurrencesFrom, hx3]

theorem prefix_has_no_blank : ∀ c ∈ POOL_MAX_CONN_PREFIX, tolower c ≠ 32 := by decide

theorem param_eq : lit " --POOL-MAX=40" = 32 :: (POOL_MAX_CONN_PREFIX ++ POOL_MAX_CONN_STR) := by
  decide

theorem param_occurrences (k : Nat) :
    occurrencesFrom POOL_MAX_CONN_PREFIX k (32 :: (POOL_MAX_CONN_PREFIX ++ POOL_MAX_CONN_STR))
      = [k + 1] := by
  have hp : POOL_MAX_CONN_PREFIX = [45, 45, 80, 79, 79, 76, 45, 77, 65, 88, 61] := by decide
  have hs : POOL_MAX_CONN_STR = [52, 48] := by decide
  rw [hp, hs]
  simp [occurrencesFrom, casePrefix, tolower]

/-- C5: for a configuration string in which the prefix "--POOL-MAX=" does not occur in
any letter case, `servers` passes to the pool constructor the input followed by
" --POOL-MAX=40", with the length of that string; in it the prefix occurs exactly once,
right after the appended blank, and what follows it to the end is "40". -/
theorem servers_appends_default (L : Lib) (settings : vmod_mc_vcl_settings)
    (config : List Nat) (hpool : settings.pool = none)
    (hno : occurrences POOL_MAX_CONN_PREFIX config = []) :
    poolCreates (vmod_servers L settings config).trace
        = [(config ++ lit " --POOL-MAX=40", (config ++ lit " --POOL-MAX=40").length)] ∧
      (config ++ lit " --POOL-MAX=40").length = config.length + 14 ∧
      occurrences POOL_MAX_CONN_PREFIX (config ++ lit " --POOL-MAX=40")
        = [config.length + 1] ∧
      (config ++ lit " --POOL-MAX=40").drop (config.length + 1 + POOL_MAX_CONN_PREFIX.length)
        = lit "40" := by
  have hnone : strcasestr config POOL_MAX_CONN_PREFIX = none :=
    (strcasestr_eq_none_iff POOL_MAX_CONN_PREFIX config 0).2 hno
  have hparam : POOL_MAX_CONN_PARAM = lit " --POOL-MAX=40" := by decide
  have hlen : (lit " --POOL-MAX=40").length = 14 := by decide
  refine ⟨?_, ?_, ?_, ?_⟩
  · unfold vmod_servers
    rw [hpool]
    simp only [hnone, Option.isSome_none, Bool.false_eq_true, if_false, strcat, strcpy, strlen,
      hparam]
    cases L.memcached_pool (config ++ lit " --POOL-MAX=40")
        (config.length + (lit " --POOL-MAX=40").length) <;>
      simp [poolCreates]
  · rw [List.length_append, hlen]
  · unfold occurrences at hno ⊢
    rw [param_eq, occurrencesFrom_append _ _ prefix_has_no_blank config 0 hno,
      param_occurrences]
    simp
  · have h11 : POOL_MAX_CONN_PREFIX.length = 11 := by decide
    have h12 : config.length + 1 + 11 = config.length + 12 := by omega
    rw [h11, h12, List.drop_append]
    decide

/-- Witness of C5: "--SERVER=a" gets the default pool size appended. -/
theorem servers_appends_default_witness :
    poolCreates (vmod_servers (fixedLib (some { id := 1 }) (none, 31) (none, 0) (0, 0))
        init_function (lit "--SERVER=a")).trace
      = [(lit "--SERVER=a" ++ lit " --POOL-MAX=40",
          (lit "--SERVER=a" ++ lit " --POOL-MAX=40").length)] :=
  (servers_appends_default (fixedLib (some { id := 1 }) (none, 31) (none, 0) (0, 0))
    init_function (lit "--SERVER=a") rfl (by decide)).1

/-- C6: for a configuration string in which the prefix "--POOL-MAX=" occurs, in any
letter case, `servers` passes to the pool constructor the input itself with its own
length, and calls the constructor once. -/
theorem servers_passes_verbatim (L : Lib) (settings : vmod_mc_vcl_settings)
    (config : List Nat) (hpool : settings.pool = none)
    (hyes : occurrences POOL_MAX_CONN_PREFIX config ≠ []) :
    poolCreates (vmod_servers L settings config).trace = [(config, config.length)] := by
  have hsome : (strcasestr config POOL_MAX_CONN_PREFIX).isSome = true := by
    cases h : strcasestr config POOL_MAX_CONN_PREFIX with
    | none => exact absurd ((strcasestr_eq_none_iff POOL_MAX_CONN_PREFIX config 0).1 h) hyes
    | some _ => rfl
  unfold vmod_servers
  rw [hpool]
  simp only [hsome, if_true, strlen]
  cases L.memcached_pool config config.length <;> simp [poolCreates]

/-- Witness of C6: a configuration with a lower-case pool size directive. -/
theorem servers_passes_verbatim_witness :
    poolCreates (vmod_servers (fixedLib (some { id := 1 }) (none, 31) (none, 0) (0, 0))
        init_function (lit "--SERVER=a --pool-max=5")).trace
      = [(lit "--SERVER=a --pool-max=5", (lit "--SERVER=a --pool-max=5").length)] :=
  servers_passes_verbatim (fixedLib (some { id := 1 }) (none, 31) (none, 0) (0, 0))
    init_function (lit "--SERVER=a --pool-max=5") rfl (by decide)

theorem poolCreates_append (xs ys : List Action) :
    poolCreates (xs ++ ys) = poolCreates xs ++ poolCreates ys := by
  induction xs with
  | nil => rfl
  | cons a rest ih => cases a <;> simp [poolCreates, ih]

theorem servers_with_pool (L : Lib) (settings : vmod_mc_vcl_settings) (config : List Nat)
    (pool : memcached_pool_st) (hpool : settings.pool = some pool) :
    vmod_servers L settings config = { settings := settings, faulted := true, trace := [] } := by
  unfold vmod_servers
  rw [hpool]

theorem configure_with_pool (L : Lib) (settings : vmod_mc_vcl_settings) (call : ConfigCall)
    (pool : memcached_pool_st) (hpool : settings.pool = some pool) :
    poolCreates (configure L settings call).trace = [] ∧
      (configure L settings call).settings.pool = some pool := by
  cases call with
  | servers config =>
    simp only [configure, servers_with_pool L settings config pool hpool]
    exact ⟨rfl, hpool⟩
  | error_string string => exact ⟨rfl, hpool⟩
  | pool_timeout_msec timeout => exact ⟨rfl, hpool⟩

theorem runConfig_with_pool (L : Lib) (calls : List ConfigCall) :
    ∀ (settings : vmod_mc_vcl_settings) (pool : memcached_pool_st),
      settings.pool = some pool → poolCreates (runConfig L settings calls).trace = [] := by
  induction calls with
  | nil => intro settings pool _; rfl
  | cons call calls ih =>
    intro settings pool hpool
    have hc := configure_with_pool L settings call pool hpool
    unfold runConfig
    dsimp only
    split
    · exact hc.1
    · rw [poolCreates_append, hc.1, ih _ pool hc.2]
      rfl

theorem servers_creates_once (L : Lib) (settings : vmod_mc_vcl_settings) (config : List Nat)
    (hpool : settings.pool = none) :
    (poolCreates (vmod_servers L settings config).trace).length = 1 ∧
      ((vmod_servers L settings config).faulted = false →
        ∃ pool, (vmod_servers L settings config).settings.pool = some pool) := by
  unfold vmod_servers
  rw [hpool]
  by_cases hc : (strcasestr config POOL_MAX_CONN_PREFIX).isSome = true
  · simp only [hc, if_true]
    cases h : L.memcached_pool config (strlen config) <;> simp [poolCreates]
  · simp only [hc, if_false]
    cases h : L.memcached_pool (strcat (strcpy config) POOL_MAX_CONN_PARAM)
        (strlen config + strlen POOL_MAX_CONN_PARAM) <;> simp [poolCreates]

theorem runConfig_creates_at_most_once (L : Lib) (calls : List ConfigCall) :
    ∀ settings : vmod_mc_vcl_settings,
      (poolCreates (runConfig L settings calls).trace).length ≤ 1 := by
  induction calls with
  | nil => intro settings; simp [runConfig, poolCreates]
  | cons call calls ih =>
    intro settings
    cases hp : settings.pool with
    | some pool => rw [runConfig_with_pool L (call :: calls) settings pool hp]; simp
    | none =>
      cases call with
      | servers config =>
        have hs := servers_creates_once L settings config hp
        unfold runConfig
        dsimp only [configure]
        split
        · exact le_of_eq hs.1
        · rename_i hf
          obtain ⟨pool, hpool⟩ := hs.2 (by simpa using hf)
          rw [poolCreates_append, List.length_append, hs.1,
            runConfig_with_pool L calls _ pool hpool]
          rfl
      | error_string string =>
        have h := ih (vmod_error_string settings string).settings
        simpa [runConfig, configure, vmod_error_string] using h
      | pool_timeout_msec timeout =>
        have h := ih (vmod_pool_timeout_msec settings timeout).settings
        simpa [runConfig, configure, vmod_pool_timeout_msec] using h

/-- C9: on settings whose pool is present `servers` fails its assertion before it
constructs a pool, logs or changes the settings; and in any sequence of configuration
calls on the settings as loaded the pool constructor is called, and the pool handle
assigned, at most once. -/
theorem servers_second_call_faults (L : Lib) (settings : vmod_mc_vcl_settings)
    (config : List Nat) (calls : List ConfigCall) (pool : memcached_pool_st)
    (hpool : settings.pool = some pool) :
    (vmod_servers L settings config).faulted = true ∧
      (vmod_servers L settings config).settings = settings ∧
      (vmod_servers L settings config).trace = [] ∧
      (poolCreates (runConfig L init_function calls).trace).length ≤ 1 := by
  rw [servers_with_pool L settings config pool hpool]
  exact ⟨rfl, rfl, rfl, runConfig_creates_at_most_once L calls init_function⟩

/-- Witness of C9: a second `servers` call after the first one built pool 1. -/
theorem servers_second_call_faults_witness :
    (vmod_servers (fixedLib (some { id := 2 }) (none, 31) (none, 0) (0, 0)) readySettings
        (lit "--SERVER=b")).faulted = true ∧
      (vmod_servers (fixedLib (some { id := 2 }) (none, 31) (none, 0) (0, 0)) readySettings
        (lit "--SERVER=b")).settings = readySettings ∧
      (vmod_servers (fixedLib (some { id := 2 }) (none, 31) (none, 0) (0, 0)) readySettings
        (lit "--SERVER=b")).trace = [] ∧
      (poolCreates (runConfig (fixedLib (some { id := 2 }) (none, 31) (none, 0) (0, 0))
        init_function [ConfigCall.servers (lit "--SERVER=a"), ConfigCall.error_string (lit "e"),
          ConfigCall.servers (lit "--SERVER=b")]).trace).length ≤ 1 :=
  servers_second_call_faults (fixedLib (some { id := 2 }) (none, 31) (none, 0) (0, 0))
    readySettings (lit "--SERVER=b")
    [ConfigCall.servers (lit "--SERVER=a"), ConfigCall.error_string (lit "e"),
      ConfigCall.servers (lit "--SERVER=b")] { id := 1 } rfl

end VmodMemcached
